import Mathlib

set_option linter.unusedVariables false

/-!
Shallow embedding of the otf-attendance service.

`AutomationService` models `src/automation_service.py`
(`get_attendance_via_playwright`): the credential/configuration validation,
the ordered sequence of Playwright page interactions, the exception
classification (Playwright timeout / Playwright error / generic exception,
all re-raised as `ConnectionError`), the digit-filter parse of the extracted
attendance text, and the `finally` block that closes the browser.

`App` models `src/app.py` (`get_yesterday_attendance_route`): the credential
and studio-id checks, the `import` of the automation function, and the
mapping of failures onto HTTP status codes.
-/

namespace AutomationService

/-- Python exception values raised by `get_attendance_via_playwright`:
`ValueError` (validation and parse failures) and `ConnectionError`
(all automation failures), each carrying its message string. -/
inductive PyErr where
  | valueError (msg : String)
  | connectionError (msg : String)
deriving DecidableEq, Repr

/-- How a single Playwright page interaction can fail: `PlaywrightTimeoutError`,
`PlaywrightError`, or any other exception, each with its message. -/
inductive FailKind where
  | timeoutErr (msg : String)
  | playwrightErr (msg : String)
  | otherErr (msg : String)
deriving DecidableEq, Repr

/-- Outcome of one page interaction as determined by the (mocked) page. -/
inductive StepOutcome where
  | ok
  | fail (k : FailKind)
deriving DecidableEq, Repr

/-- The ordered browser interactions of `get_attendance_via_playwright`
(source lines 71-129): browser launch, login-page navigation and form fill,
post-login confirmation wait, studio-performance navigation, studio/tab/date
selection, and attendance-value extraction. -/
inductive Step where
  | launch
  | gotoLogin
  | waitEmailInput
  | fillUsername
  | clickNext
  | waitPasswordInput
  | fillPassword
  | clickSignin
  | waitPostLoginConfirm
  | gotoStudioPerformance
  | waitStudioDropdown
  | selectStudio
  | waitAttendanceTab
  | clickAttendanceTab
  | waitDateRange
  | clickDateRange
  | waitAttendanceValue
  | extractAttendanceText
deriving DecidableEq, Repr

/-- The behaviour of the portal pages during one retrieval: the outcome of
each interaction and the text content of the attendance element. -/
structure Page where
  outcome : Step → StepOutcome
  extractedText : String

/-- The interactions performed after the browser launch, in source order. -/
def pageSteps : List Step :=
  [Step.gotoLogin, Step.waitEmailInput, Step.fillUsername, Step.clickNext,
   Step.waitPasswordInput, Step.fillPassword, Step.clickSignin,
   Step.waitPostLoginConfirm, Step.gotoStudioPerformance,
   Step.waitStudioDropdown, Step.selectStudio, Step.waitAttendanceTab,
   Step.clickAttendanceTab, Step.waitDateRange, Step.clickDateRange,
   Step.waitAttendanceValue, Step.extractAttendanceText]

/-- Run interactions in order until the first failure; returns the attempted
steps (the failing one included) and the first failure, if any. -/
def runSteps : List Step → Page → List Step × Option (Step × FailKind)
  | [], _ => ([], none)
  | s :: rest, page =>
    match page.outcome s with
    | StepOutcome.ok =>
      let r := runSteps rest page
      (s :: r.1, r.2)
    | StepOutcome.fail k => ([s], some (s, k))

/-- The message of the `ConnectionError` raised at source line 102 when the
post-login confirmation element does not become visible in time. -/
def loginFailedMsg : String :=
  "Login failed or timed out.  Check credentials and MFA handling."

/-- Exception classification of `get_attendance_via_playwright`
(source lines 95-102 and 140-148), giving the error that escapes to the
caller. A `PlaywrightTimeoutError` at the post-login confirmation wait is
caught by the inner handler, which raises `ConnectionError` with the
login-specific message at line 102; that raise happens inside the outer
`try` body, so the new `ConnectionError` is itself caught by the
`except Exception` handler at line 146 and re-raised with the
"An unexpected error occurred" prefix around the login message. Every other
failure is classified once by the outer handlers, whose own raises sit in
`except` clauses and escape directly. -/
def classifyFailure (s : Step) (k : FailKind) : PyErr :=
  match k with
  | FailKind.timeoutErr m =>
    if s = Step.waitPostLoginConfirm then
      PyErr.connectionError
        ("An unexpected error occurred during automation: " ++ loginFailedMsg)
    else
      PyErr.connectionError ("Timeout during browser automation: " ++ m)
  | FailKind.playwrightErr m =>
    PyErr.connectionError ("Error during browser automation: " ++ m)
  | FailKind.otherErr m =>
    PyErr.connectionError ("An unexpected error occurred during automation: " ++ m)

/-- `''.join(filter(str.isdigit, attendance_text))` (source line 133). -/
def cleaned_text (s : String) : String :=
  String.mk (s.data.filter Char.isDigit)

/-- `int()` applied to a nonempty string of decimal digits. -/
def strToInt (s : String) : Nat :=
  s.data.foldl (fun n c => 10 * n + (c.toNat - 48)) 0

/-- Message of the `ValueError` raised at source line 135 when no digit
remains; it cites the original raw text. -/
def parseFailMsg (raw : String) : String :=
  "Could not extract a valid attendance number from the page.  Text found: '"
    ++ raw ++ "'"

/-- The parse step (source lines 133-136): keep only digit characters;
empty result raises `ValueError` citing the raw text, otherwise `int()`. -/
def parse_attendance (raw : String) : Except PyErr Nat :=
  let cleaned := cleaned_text raw
  if cleaned.data = [] then
    Except.error (PyErr.valueError (parseFailMsg raw))
  else
    Except.ok (strToInt cleaned)

/-- What the caller sees once control leaves the `try` block of
`get_attendance_via_playwright` on the all-steps-succeeded path: the parse
`ValueError` is itself an `Exception`, so it is caught by the
`except Exception` handler at source line 146 and re-raised as a
`ConnectionError` wrapping its message. -/
def finishParse (raw : String) : Except PyErr Nat :=
  match parse_attendance raw with
  | Except.ok n => Except.ok n
  | Except.error (PyErr.valueError m) =>
    Except.error (PyErr.connectionError
      ("An unexpected error occurred during automation: " ++ m))
  | Except.error e => Except.error e

/-- `datetime.date`. -/
structure Date where
  year : Nat
  month : Nat
  day : Nat
deriving DecidableEq, Repr

def pad2 (n : Nat) : String := if n < 10 then "0" ++ toString n else toString n

def pad4 (n : Nat) : String :=
  if n < 10 then "000" ++ toString n
  else if n < 100 then "00" ++ toString n
  else if n < 1000 then "0" ++ toString n
  else toString n

/-- `target_date.strftime('%Y-%m-%d')` (source line 56). -/
def dateStr (d : Date) : String :=
  pad4 d.year ++ "-" ++ pad2 d.month ++ "-" ++ pad2 d.day

/-- `STUDIO_PERFORMANCE_URL` configuration (source line 13). -/
structure Config where
  studioPerformanceURL : String
deriving DecidableEq, Repr

/-- Everything observable about one call to `get_attendance_via_playwright`:
the returned value or raised exception, the browser interactions attempted
in order, whether a browser was launched, whether it was closed by the
`finally` block, and the date string that appears in the request log line
(`none` when validation fails before the log statement runs). -/
structure RunResult where
  result : Except PyErr Nat
  steps : List Step
  browserLaunched : Bool
  browserClosed : Bool
  logDate : Option String
deriving Repr

/-- The body of the `with sync_playwright()` block (source lines 67-152):
launch, run the page interactions, classify the first failure, parse on
success, and always close the browser in `finally` once it was launched. -/
def runAutomation (target_date : Date) (page : Page) : RunResult :=
  match page.outcome Step.launch with
  | StepOutcome.fail k =>
    { result := Except.error (classifyFailure Step.launch k)
      steps := [Step.launch]
      browserLaunched := false
      browserClosed := false
      logDate := some (dateStr target_date) }
  | StepOutcome.ok =>
    match runSteps pageSteps page with
    | (attempted, some sk) =>
      { result := Except.error (classifyFailure sk.1 sk.2)
        steps := Step.launch :: attempted
        browserLaunched := true
        browserClosed := true
        logDate := some (dateStr target_date) }
    | (attempted, none) =>
      { result := finishParse page.extractedText
        steps := Step.launch :: attempted
        browserLaunched := true
        browserClosed := true
        logDate := some (dateStr target_date) }

/-- `get_attendance_via_playwright(username, password, studio_id, target_date)`
(source lines 31-152), with the page behaviour supplied as an oracle.
Validation (lines 51-54) raises `ValueError` before any browser activity. -/
def get_attendance_via_playwright (cfg : Config)
    (username password studio_id : String) (target_date : Date)
    (page : Page) : RunResult :=
  if username = "" ∨ password = "" then
    { result := Except.error (PyErr.valueError "Username and Password are required.")
      steps := []
      browserLaunched := false
      browserClosed := false
      logDate := none }
  else if cfg.studioPerformanceURL = "" then
    { result := Except.error (PyErr.valueError
        "STUDIO_PERFORMANCE_URL configuration is missing.  Please set the OTF_STUDIO_PERFORMANCE_URL environment variable.")
      steps := []
      browserLaunched := false
      browserClosed := false
      logDate := none }
  else
    runAutomation target_date page

/-- The first failing interaction of the whole session, if any. -/
def firstFailure (page : Page) : Option (Step × FailKind) :=
  match page.outcome Step.launch with
  | StepOutcome.fail k => some (Step.launch, k)
  | StepOutcome.ok => (runSteps pageSteps page).2

/-- A page on which every interaction succeeds and the attendance element
holds `txt` (the mocked automation layer of the end-to-end scenarios). -/
def allOkPage (txt : String) : Page :=
  { outcome := fun _ => StepOutcome.ok, extractedText := txt }

/-- A configuration with the studio-performance URL present. -/
def cfgOK : Config := { studioPerformanceURL := "https://portal.example/studio-performance" }

def sampleDate : Date := { year := 2026, month := 10, day := 12 }

/-- Is the outcome the parse-level `ValueError`? -/
def isParseValueError : Except PyErr Nat → Bool
  | Except.error (PyErr.valueError _) => true
  | _ => false

/-- A page on which every interaction succeeds except the post-login
confirmation wait, which times out. -/
def authTimeoutPage : Page :=
  { outcome := fun s =>
      if s = Step.waitPostLoginConfirm then
        StepOutcome.fail (FailKind.timeoutErr "Timeout 30000ms exceeded.")
      else StepOutcome.ok
    extractedText := "" }

/-- A page on which every interaction succeeds but the attendance element
holds no digit at all. -/
def noDigitPage : Page := allOkPage "N/A"

end AutomationService

namespace WeekdayTable

open AutomationService (Date)

/-- Modelled from the spec: the table-extraction variant of the automation
service (not present under `src/`, which contains only the single-value
Playwright variant) computes the weekday index of `targetDate` with
Monday = 0 through Sunday = 6, as Python's `date.weekday()` does. Computed
here with Sakamoto's method and shifted so Monday is 0. -/
def weekdayIndex (d : Date) : Nat :=
  let adjYear := if d.month < 3 then d.year - 1 else d.year
  let monthTable : List Nat := [0, 3, 2, 5, 0, 3, 5, 1, 4, 6, 2, 4]
  let sunday0 :=
    (adjYear + adjYear / 4 - adjYear / 100 + adjYear / 400
      + monthTable.getD (d.month - 1) 0 + d.day) % 7
  (sunday0 + 6) % 7

inductive Weekday where
  | monday | tuesday | wednesday | thursday | friday | saturday | sunday
deriving DecidableEq, Repr

def weekdayFromIndex : Nat → Weekday
  | 0 => Weekday.monday
  | 1 => Weekday.tuesday
  | 2 => Weekday.wednesday
  | 3 => Weekday.thursday
  | 4 => Weekday.friday
  | 5 => Weekday.saturday
  | _ => Weekday.sunday

/-- The weekday of a date under the Monday = 0 … Sunday = 6 convention. -/
def weekdayOf (d : Date) : Weekday := weekdayFromIndex (weekdayIndex d)

/-- Modelled from the spec: the data-column offset used by the
table-extraction variant is `weekday_index + 1`, relative to the row's label
column at offset 0. -/
def columnOffset (d : Date) : Nat := weekdayIndex d + 1

end WeekdayTable

namespace App

open AutomationService (PyErr)

/-- The names defined at module level by `src/automation_service.py`
that `from automation_service import ...` can bind functions from:
only `get_attendance_via_playwright` (source line 31). -/
def automationServiceExportedNames : List String :=
  ["get_attendance_via_playwright"]

/-- The name `src/app.py` line 21 tries to import from `automation_service`. -/
def importedAutomationName : String := "get_attendance_from_portal"

/-- Whether the `from automation_service import get_attendance_from_portal`
statement succeeds; when it does not, the `except ImportError` fallback
(source lines 22-26) installs a stub that raises `ServiceUnavailable`. -/
def automationImportSucceeds : Bool :=
  automationServiceExportedNames.contains importedAutomationName

/-- Server environment of `src/app.py`: the configured studio id and the
backend credentials (`""` models an unset environment variable). -/
structure AppEnv where
  targetStudioId : String
  otfUsername : String
  otfPassword : String
deriving DecidableEq, Repr

/-- An HTTP response of the route: status code and, on failure, the
`error` field of the JSON body. -/
inductive RouteResult where
  | success (status : Nat) (attendance : Nat)
  | failure (status : Nat) (errorMsg : String)
deriving DecidableEq, Repr

/-- The response of the route together with whether the browser-automation
layer was actually invoked for the request. -/
structure RouteOutcome where
  response : RouteResult
  automationInvoked : Bool
deriving DecidableEq, Repr

/-- `get_yesterday_attendance_route` of `src/app.py` (lines 54-147):
credential check (lines 58-60, raises `InternalServerError`), studio-id
check (lines 66-68, raises `BadRequest`), then the automation call — which,
when the import failed, is the fallback raising `ServiceUnavailable`,
caught at line 133 and mapped to 503. `svc` is the result the real
automation function would produce if it were invoked; `studioParam` is the
optional `studio_id` query parameter, defaulting to the configured id. -/
def get_yesterday_attendance_route (env : AppEnv) (studioParam : Option String)
    (svc : Except PyErr Nat) : RouteOutcome :=
  if env.otfUsername = "" ∨ env.otfPassword = "" then
    { response := RouteResult.failure 500 "Backend OTF credentials not configured."
      automationInvoked := false }
  else
    let studio_id_req := studioParam.getD env.targetStudioId
    if studio_id_req ≠ env.targetStudioId then
      { response := RouteResult.failure 400
          ("MVP currently only supports Studio ID " ++ env.targetStudioId)
        automationInvoked := false }
    else if automationImportSucceeds then
      match svc with
      | Except.ok n =>
        { response := RouteResult.success 200 n, automationInvoked := true }
      | Except.error (PyErr.connectionError _) =>
        { response := RouteResult.failure 503 "Failed to retrieve data from OTF Portal."
          automationInvoked := true }
      | Except.error (PyErr.valueError _) =>
        { response := RouteResult.failure 500 "Error processing retrieved data."
          automationInvoked := true }
    else
      { response := RouteResult.failure 503 "Failed to retrieve data."
        automationInvoked := false }

/-- The default deployment environment of `src/app.py` (lines 33-37) with
credentials present. -/
def defaultEnv : AppEnv :=
  { targetStudioId := "0134", otfUsername := "manager", otfPassword := "hunter2" }

end App

open AutomationService

/-- **C1.** For every extracted attendance text containing at least one
decimal digit, the parse step returns the integer obtained by concatenating,
in order, exactly the digit characters of the text and discarding every
non-digit character; in particular `"1,234 visits"` yields 1234, and a
retrieval whose mocked page yields raw text `"  142 "` returns 142. -/
theorem parse_keeps_exactly_the_digits :
    (∀ s : String, (∃ c ∈ s.data, c.isDigit) →
      parse_attendance s = Except.ok
        ((s.data.filter Char.isDigit).foldl (fun n c => 10 * n + (c.toNat - 48)) 0)) ∧
    parse_attendance "1,234 visits" = Except.ok 1234 ∧
    (get_attendance_via_playwright cfgOK "manager" "hunter2" "0134" sampleDate
      (allOkPage "  142 ")).result = Except.ok 142 := by
  refine ⟨?_, rfl, rfl⟩
  intro s h
  have hne : s.data.filter Char.isDigit ≠ [] := by
    rcases h with ⟨c, hc, hd⟩
    intro hnil
    rw [List.filter_eq_nil_iff] at hnil
    exact absurd hd (by simpa using hnil c hc)
  simp [parse_attendance, cleaned_text, strToInt, hne]

/-- Witness for C1 at the concrete input `"1,234 visits"`. -/
theorem parse_keeps_exactly_the_digits_witness :
    parse_attendance "1,234 visits" = Except.ok
      (("1,234 visits".data.filter Char.isDigit).foldl
        (fun n c => 10 * n + (c.toNat - 48)) 0) :=
  parse_keeps_exactly_the_digits.1 "1,234 visits" (by decide)

/-- **C2.** When the username is empty, the password is empty, or the
studio-performance URL configuration is absent, `get_attendance_via_playwright`
raises `ValueError` before any browser activity: no interaction is attempted
and no browser is launched. -/
theorem empty_credentials_fail_before_automation
    (cfg : Config) (u p sid : String) (d : Date) (page : Page)
    (h : u = "" ∨ p = "" ∨ cfg.studioPerformanceURL = "") :
    (∃ m, (get_attendance_via_playwright cfg u p sid d page).result =
      Except.error (PyErr.valueError m)) ∧
    (get_attendance_via_playwright cfg u p sid d page).steps = [] ∧
    (get_attendance_via_playwright cfg u p sid d page).browserLaunched = false := by
  by_cases h1 : u = "" ∨ p = ""
  · simp [get_attendance_via_playwright, h1]
  · have h2 : cfg.studioPerformanceURL = "" := by tauto
    simp [get_attendance_via_playwright, h1, h2]

/-- Witness for C2: an empty username with a live page oracle. -/
theorem empty_credentials_fail_before_automation_witness :
    (∃ m, (get_attendance_via_playwright cfgOK "" "hunter2" "0134" sampleDate
      (allOkPage "142")).result = Except.error (PyErr.valueError m)) ∧
    (get_attendance_via_playwright cfgOK "" "hunter2" "0134" sampleDate
      (allOkPage "142")).steps = [] ∧
    (get_attendance_via_playwright cfgOK "" "hunter2" "0134" sampleDate
      (allOkPage "142")).browserLaunched = false :=
  empty_credentials_fail_before_automation cfgOK "" "hunter2" "0134" sampleDate
    (allOkPage "142") (Or.inl rfl)

/-- **C5.** `get_attendance_via_playwright` returns an integer only on the
path where every interaction succeeded and the extracted text contained a
digit, and the integer is exactly the parsed value — every failing path
raises, and no sentinel value ever stands in for a failure. -/
theorem no_fabricated_success
    (cfg : Config) (u p sid : String) (d : Date) (page : Page) (n : Nat)
    (h : (get_attendance_via_playwright cfg u p sid d page).result = Except.ok n) :
    firstFailure page = none ∧
    (cleaned_text page.extractedText).data ≠ [] ∧
    n = strToInt (cleaned_text page.extractedText) := by
  by_cases h1 : u = "" ∨ p = ""
  · simp [get_attendance_via_playwright, h1] at h
  · by_cases h2 : cfg.studioPerformanceURL = ""
    · simp [get_attendance_via_playwright, h1, h2] at h
    · rcases hl : page.outcome Step.launch with _ | k
      · rcases hr : runSteps pageSteps page with ⟨att, f⟩
        rcases f with _ | sk
        · simp only [get_attendance_via_playwright, if_neg h1, if_neg h2] at h
          unfold runAutomation at h
          rw [hl] at h
          simp only [hr] at h
          unfold finishParse parse_attendance at h
          by_cases h3 : (cleaned_text page.extractedText).data = []
          · simp [h3] at h
          · rw [if_neg h3] at h
            simp at h
            exact ⟨by simp [firstFailure, hl, hr], h3, h.symm⟩
        · simp only [get_attendance_via_playwright, if_neg h1, if_neg h2] at h
          unfold runAutomation at h
          rw [hl] at h
          simp only [hr] at h
          simp at h
      · simp only [get_attendance_via_playwright, if_neg h1, if_neg h2] at h
        unfold runAutomation at h
        rw [hl] at h
        simp at h

/-- **C3, counterexample.** With every interaction succeeding and the
attendance element holding the digit-free text `"N/A"`, the failure reaching
the caller is a `ConnectionError` (the parse `ValueError` is caught by the
`except Exception` handler at source line 146 and re-raised), not the
parse-level `ValueError`. -/
theorem parse_failure_is_converted_counterexample :
    (get_attendance_via_playwright cfgOK "manager" "hunter2" "0134" sampleDate
      (allOkPage "N/A")).result =
      Except.error (PyErr.connectionError
        ("An unexpected error occurred during automation: Could not extract a valid attendance number from the page.  Text found: 'N/A'")) ∧
    isParseValueError (get_attendance_via_playwright cfgOK "manager" "hunter2"
      "0134" sampleDate (allOkPage "N/A")).result = false :=
  ⟨rfl, rfl⟩

/-- **C3, amended.** For every extracted attendance text with no digit
character, the parse step raises `ValueError` citing the raw text, but the
function's own generic exception handler catches it and re-raises it as a
`ConnectionError` whose message still carries the original raw text; the
caller therefore sees a `ConnectionError`, not the parse-level error. -/
theorem parse_failure_surfaces_as_connection_error
    (cfg : Config) (u p sid : String) (d : Date) (page : Page)
    (hu : u ≠ "") (hp : p ≠ "") (hcfg : cfg.studioPerformanceURL ≠ "")
    (hok : firstFailure page = none)
    (hnodigit : (cleaned_text page.extractedText).data = []) :
    parse_attendance page.extractedText =
      Except.error (PyErr.valueError (parseFailMsg page.extractedText)) ∧
    (get_attendance_via_playwright cfg u p sid d page).result =
      Except.error (PyErr.connectionError
        ("An unexpected error occurred during automation: "
          ++ parseFailMsg page.extractedText)) := by
  have h1 : ¬(u = "" ∨ p = "") := by tauto
  have hparse : parse_attendance page.extractedText =
      Except.error (PyErr.valueError (parseFailMsg page.extractedText)) := by
    unfold parse_attendance
    rw [if_pos hnodigit]
  refine ⟨hparse, ?_⟩
  unfold firstFailure at hok
  rcases hl : page.outcome Step.launch with _ | k
  · rw [hl] at hok
    rcases hr : runSteps pageSteps page with ⟨att, f⟩
    rw [hr] at hok
    simp at hok
    subst hok
    simp only [get_attendance_via_playwright, if_neg h1, if_neg hcfg]
    unfold runAutomation
    rw [hl, hr]
    simp [finishParse, hparse]
  · rw [hl] at hok
    simp at hok

/-- Witness for the amended C3 at the concrete digit-free text `"N/A"`. -/
theorem parse_failure_surfaces_as_connection_error_witness :
    parse_attendance (allOkPage "N/A").extractedText =
      Except.error (PyErr.valueError (parseFailMsg (allOkPage "N/A").extractedText)) ∧
    (get_attendance_via_playwright cfgOK "manager" "hunter2" "0134" sampleDate
      (allOkPage "N/A")).result =
      Except.error (PyErr.connectionError
        ("An unexpected error occurred during automation: "
          ++ parseFailMsg (allOkPage "N/A").extractedText)) :=
  parse_failure_surfaces_as_connection_error cfgOK "manager" "hunter2" "0134"
    sampleDate (allOkPage "N/A") (by decide) (by decide) (by decide) rfl rfl

/-- The message of the login-failure error that escapes to the caller
(the line-102 `ConnectionError`, re-wrapped by the line-146 handler)
differs from every generic-timeout message: the two failures are never
confused. -/
theorem auth_failure_msg_ne_generic_timeout (m : String) :
    "An unexpected error occurred during automation: " ++ loginFailedMsg ≠
      "Timeout during browser automation: " ++ m := by
  intro h
  have h2 := congrArg String.data h
  rw [String.data_append, String.data_append] at h2
  simp [loginFailedMsg] at h2

/-- **C4.** When the post-login confirmation element does not appear within
its timeout (and every other interaction would succeed),
`get_attendance_via_playwright` fails with the `ConnectionError` carrying
the login-specific message raised at line 102 (re-wrapped by the generic
line-146 handler, through which it passes on its way out) — a failure
distinct from the generic timeout error that any other step's timeout
produces. -/
theorem login_timeout_is_distinct_auth_failure
    (cfg : Config) (u p sid : String) (d : Date) (page : Page) (m : String)
    (hu : u ≠ "") (hp : p ≠ "") (hcfg : cfg.studioPerformanceURL ≠ "")
    (hok : ∀ s, s ≠ Step.waitPostLoginConfirm → page.outcome s = StepOutcome.ok)
    (htm : page.outcome Step.waitPostLoginConfirm =
      StepOutcome.fail (FailKind.timeoutErr m)) :
    (get_attendance_via_playwright cfg u p sid d page).result =
      Except.error (PyErr.connectionError
        ("An unexpected error occurred during automation: " ++ loginFailedMsg)) ∧
    (∀ m', PyErr.connectionError
        ("An unexpected error occurred during automation: " ++ loginFailedMsg) ≠
      PyErr.connectionError ("Timeout during browser automation: " ++ m')) ∧
    (∀ s m', s ≠ Step.waitPostLoginConfirm →
      classifyFailure s (FailKind.timeoutErr m') =
        PyErr.connectionError ("Timeout during browser automation: " ++ m')) := by
  have h1 : ¬(u = "" ∨ p = "") := by tauto
  refine ⟨?_, ?_, ?_⟩
  · simp only [get_attendance_via_playwright, if_neg h1, if_neg hcfg]
    unfold runAutomation
    rw [hok Step.launch (by simp)]
    simp only [pageSteps, runSteps, hok Step.gotoLogin (by simp),
      hok Step.waitEmailInput (by simp), hok Step.fillUsername (by simp),
      hok Step.clickNext (by simp), hok Step.waitPasswordInput (by simp),
      hok Step.fillPassword (by simp), hok Step.clickSignin (by simp), htm]
    simp [classifyFailure]
  · intro m' hcontra
    exact auth_failure_msg_ne_generic_timeout m' (by injection hcontra)
  · intro s m' hs
    simp [classifyFailure, hs]

/-- Witness for C4 on a concrete page whose only failure is a timeout at the
post-login confirmation wait. -/
theorem login_timeout_is_distinct_auth_failure_witness :
    (get_attendance_via_playwright cfgOK "manager" "hunter2" "0134" sampleDate
      authTimeoutPage).result =
      Except.error (PyErr.connectionError
        ("An unexpected error occurred during automation: " ++ loginFailedMsg)) :=
  (login_timeout_is_distinct_auth_failure cfgOK "manager" "hunter2" "0134"
    sampleDate authTimeoutPage "Timeout 30000ms exceeded."
    (by decide) (by decide) (by decide)
    (fun s hs => by simp [authTimeoutPage, hs]) rfl).1

/-- **C8.** On every exit path on which a browser was launched — normal
return as well as every exception path — the `finally` block closes the
browser before `get_attendance_via_playwright` returns or the exception
propagates. -/
theorem browser_closed_on_every_exit
    (cfg : Config) (u p sid : String) (d : Date) (page : Page)
    (h : (get_attendance_via_playwright cfg u p sid d page).browserLaunched = true) :
    (get_attendance_via_playwright cfg u p sid d page).browserClosed = true := by
  by_cases h1 : u = "" ∨ p = ""
  · simp [get_attendance_via_playwright, h1] at h
  · by_cases h2 : cfg.studioPerformanceURL = ""
    · simp [get_attendance_via_playwright, h1, h2] at h
    · rcases hl : page.outcome Step.launch with _ | k
      · rcases hr : runSteps pageSteps page with ⟨att, f⟩
        rcases f with _ | sk <;>
          simp [get_attendance_via_playwright, runAutomation, h1, h2, hl, hr]
      · simp [get_attendance_via_playwright, runAutomation, h1, h2, hl] at h

/-- Witness for C8 on a concrete retrieval whose browser is launched. -/
theorem browser_closed_on_every_exit_witness :
    (get_attendance_via_playwright cfgOK "manager" "hunter2" "0134" sampleDate
      (allOkPage "142")).browserClosed = true :=
  browser_closed_on_every_exit cfgOK "manager" "hunter2" "0134" sampleDate
    (allOkPage "142") rfl

/-- **C10.** For any two target dates, retrieval with the same credentials,
studio id and page behaviour performs the same browser interactions and
produces the same result: the target date only enters the logged date
string. -/
theorem target_date_affects_only_the_log
    (cfg : Config) (u p sid : String) (d1 d2 : Date) (page : Page) :
    (get_attendance_via_playwright cfg u p sid d1 page).result =
      (get_attendance_via_playwright cfg u p sid d2 page).result ∧
    (get_attendance_via_playwright cfg u p sid d1 page).steps =
      (get_attendance_via_playwright cfg u p sid d2 page).steps ∧
    (get_attendance_via_playwright cfg u p sid d1 page).browserLaunched =
      (get_attendance_via_playwright cfg u p sid d2 page).browserLaunched ∧
    (get_attendance_via_playwright cfg u p sid d1 page).browserClosed =
      (get_attendance_via_playwright cfg u p sid d2 page).browserClosed := by
  by_cases h1 : u = "" ∨ p = ""
  · simp [get_attendance_via_playwright, h1]
  · by_cases h2 : cfg.studioPerformanceURL = ""
    · simp [get_attendance_via_playwright, h1, h2]
    · rcases hl : page.outcome Step.launch with _ | k
      · rcases hr : runSteps pageSteps page with ⟨att, f⟩
        rcases f with _ | sk <;>
          simp [get_attendance_via_playwright, runAutomation, h1, h2, hl, hr]
      · simp [get_attendance_via_playwright, runAutomation, h1, h2, hl]

/-- Witness for C5 at a fully successful concrete retrieval. -/
theorem no_fabricated_success_witness :
    firstFailure (allOkPage "  142 ") = none ∧
    (cleaned_text (allOkPage "  142 ").extractedText).data ≠ [] ∧
    142 = strToInt (cleaned_text (allOkPage "  142 ").extractedText) :=
  no_fabricated_success cfgOK "manager" "hunter2" "0134" sampleDate
    (allOkPage "  142 ") 142 rfl

/-- **C6.** A request whose `studio_id` parameter differs from the configured
studio id never reaches the automation layer, and — with the backend
credentials configured — is rejected with a 400 `BadRequest` before
retrieval begins. -/
theorem mismatched_studio_rejected_before_retrieval
    (env : App.AppEnv) (param : Option String) (svc : Except PyErr Nat)
    (sid : String) (hparam : param = some sid)
    (hne : sid ≠ env.targetStudioId) :
    (App.get_yesterday_attendance_route env param svc).automationInvoked = false ∧
    (env.otfUsername ≠ "" → env.otfPassword ≠ "" →
      App.get_yesterday_attendance_route env param svc =
        { response := App.RouteResult.failure 400
            ("MVP currently only supports Studio ID " ++ env.targetStudioId)
          automationInvoked := false }) := by
  subst hparam
  constructor
  · unfold App.get_yesterday_attendance_route
    by_cases hc : env.otfUsername = "" ∨ env.otfPassword = ""
    · simp [hc]
    · simp [hc, hne]
  · intro hu hp
    have hc : ¬(env.otfUsername = "" ∨ env.otfPassword = "") := by tauto
    unfold App.get_yesterday_attendance_route
    simp [hc, hne]

/-- Witness for C6: a request for studio `"9999"` against the default
environment configured for studio `"0134"`. -/
theorem mismatched_studio_rejected_before_retrieval_witness :
    App.get_yesterday_attendance_route App.defaultEnv (some "9999") (Except.ok 10) =
      { response := App.RouteResult.failure 400
          ("MVP currently only supports Studio ID " ++ App.defaultEnv.targetStudioId)
        automationInvoked := false } :=
  (mismatched_studio_rejected_before_retrieval App.defaultEnv (some "9999")
    (Except.ok 10) "9999" rfl (by decide)).2 (by decide) (by decide)

/-- The weekday index is always one of 0..6. -/
theorem weekdayIndex_lt_seven (d : Date) : WeekdayTable.weekdayIndex d < 7 := by
  dsimp only [WeekdayTable.weekdayIndex]
  exact Nat.mod_lt _ (by norm_num)

/-- **C7.** For every calendar date, regardless of month or year, the
table-extraction variant maps the weekday of the target date
(Monday = 0 … Sunday = 6) to data-column offset `weekday_index + 1` relative
to the label column at offset 0; in particular Monday maps to offset 1,
Wednesday to offset 3, and Sunday to offset 7. -/
theorem weekday_column_offset_mapping (d : Date) :
    WeekdayTable.columnOffset d = WeekdayTable.weekdayIndex d + 1 ∧
    (WeekdayTable.weekdayOf d = WeekdayTable.Weekday.monday →
      WeekdayTable.columnOffset d = 1) ∧
    (WeekdayTable.weekdayOf d = WeekdayTable.Weekday.wednesday →
      WeekdayTable.columnOffset d = 3) ∧
    (WeekdayTable.weekdayOf d = WeekdayTable.Weekday.sunday →
      WeekdayTable.columnOffset d = 7) := by
  obtain ⟨n, hn⟩ : ∃ n, WeekdayTable.weekdayIndex d = n := ⟨_, rfl⟩
  have hlt : n < 7 := hn ▸ weekdayIndex_lt_seven d
  refine ⟨rfl, ?_, ?_, ?_⟩ <;> intro h <;>
    (unfold WeekdayTable.weekdayOf at h
     unfold WeekdayTable.columnOffset
     rw [hn] at h ⊢) <;>
    interval_cases n <;> simp_all [WeekdayTable.weekdayFromIndex]

/-- Witness for C7 at 2026-10-12, a Monday: its column offset is 1. -/
theorem weekday_column_offset_mapping_witness :
    WeekdayTable.columnOffset { year := 2026, month := 10, day := 12 } = 1 :=
  (weekday_column_offset_mapping { year := 2026, month := 10, day := 12 }).2.1
    (by decide)

/-- **C9.** `src/app.py` imports `get_attendance_from_portal`, a name
`src/automation_service.py` does not define (it defines only
`get_attendance_via_playwright`), so the `ImportError` fallback is installed
at startup, and every request passing the credential and studio-id checks is
answered 503 by the `ServiceUnavailable` handler without any automation
being performed. -/
theorem broken_import_gives_503_without_automation
    (env : App.AppEnv) (param : Option String) (svc : Except PyErr Nat)
    (hu : env.otfUsername ≠ "") (hp : env.otfPassword ≠ "")
    (hsid : param.getD env.targetStudioId = env.targetStudioId) :
    App.automationImportSucceeds = false ∧
    App.automationServiceExportedNames = ["get_attendance_via_playwright"] ∧
    App.importedAutomationName ∉ App.automationServiceExportedNames ∧
    App.get_yesterday_attendance_route env param svc =
      { response := App.RouteResult.failure 503 "Failed to retrieve data."
        automationInvoked := false } := by
  have hc : ¬(env.otfUsername = "" ∨ env.otfPassword = "") := by tauto
  refine ⟨by decide, rfl, by decide, ?_⟩
  unfold App.get_yesterday_attendance_route
  have himp : App.automationImportSucceeds = false := by decide
  simp [hc, hsid, himp]

/-- Witness for C9: a request without a `studio_id` parameter against the
default environment. -/
theorem broken_import_gives_503_without_automation_witness :
    App.get_yesterday_attendance_route App.defaultEnv none (Except.ok 5) =
      { response := App.RouteResult.failure 503 "Failed to retrieve data."
        automationInvoked := false } :=
  (broken_import_gives_503_without_automation App.defaultEnv none (Except.ok 5)
    (by decide) (by decide) rfl).2.2.2
